import Mathlib

/-!
Verification of the auto-yt-notify worker.

The repository holds two generations of the same Cloudflare worker:
* `lib.ts` (class `YoutubeNotifier`) together with the entry file calling it
  (`src/unnamed/part_000`), and
* `utils.ts` together with its entry file (`src/unnamed/part_001`).

Both are embedded below.  External collaborators (WebCrypto HMAC, the global
`fetch`, the XML parser and the KV store) are passed in as explicit function
arguments or state, exactly at the interface the TypeScript code uses them.
JavaScript values flowing out of the XML parser and JSON.parse are modelled by
the inductive type `JSVal`.
-/

namespace YtNotify

/-- A JavaScript value as produced by JSON.parse or the XML parser and consumed
by the valibot schemas.  `date` is a JS `Date` object carrying its epoch value
in milliseconds; `jsUndefined` is `undefined`. -/
inductive JSVal where
  | jsUndefined
  | nullv
  | jsBool (b : Bool)
  | num (n : Int)
  | str (s : String)
  | date (epochMillis : Int)
  | arr (elems : List JSVal)
  | obj (fields : List (String × JSVal))

/-- Key lookup on the field list of a JS object (keys produced by the parsers
are unique, the first binding wins).  `some` means the key is present. -/
def lookupField (fields : List (String × JSVal)) (k : String) : Option JSVal :=
  match fields with
  | [] => none
  | (k', v) :: rest => if k' = k then some v else lookupField rest k

/-- valibot `string()`: succeeds exactly on a JS string. -/
def asString : JSVal → Option String
  | .str s => some s
  | _ => none

/-- valibot `number()`: succeeds exactly on a JS number. -/
def asNum : JSVal → Option Int
  | .num n => some n
  | _ => none

/-- valibot `date()`: succeeds exactly on a JS Date instance. -/
def asDate : JSVal → Option Int
  | .date d => some d
  | _ => none

/-- JS truthiness: `undefined`, `null`, `false`, `0` and `""` are falsy, every
object (including arrays and dates) is truthy. -/
def jsTruthy : JSVal → Bool
  | .jsUndefined => false
  | .nullv => false
  | .jsBool b => b
  | .num n => decide (n ≠ 0)
  | .str s => decide (s ≠ "")
  | .date _ => true
  | .arr _ => true
  | .obj _ => true

/-- A JavaScript runtime error escaping to the caller. -/
inductive JsError where
  | typeError
deriving DecidableEq

/-- JS property access `v[k]`: on an object it yields the bound value or
`undefined`; on `undefined`/`null` it throws a TypeError; on the remaining
primitives it yields `undefined` (none of the accessed keys exist on them). -/
def jsGet (v : JSVal) (k : String) : Except JsError JSVal :=
  match v with
  | .obj fields => .ok ((lookupField fields k).getD .jsUndefined)
  | .jsUndefined => .error .typeError
  | .nullv => .error .typeError
  | _ => .ok .jsUndefined

/-! ## Signature verification (lib.ts 104-113 and utils.ts 81-93) -/

/-- The hash algorithms the WebCrypto HMAC implementation accepts. -/
inductive HashAlg where
  | sha1
  | sha256
  | sha384
  | sha512
deriving DecidableEq

/-- WebCrypto hash-name resolution as performed by `crypto.subtle.importKey`:
only the four dashed SHA names are recognised; any other name makes the
returned promise reject with NotSupportedError. -/
def webCryptoHash : String → Option HashAlg
  | "SHA-1" => some .sha1
  | "SHA-256" => some .sha256
  | "SHA-384" => some .sha384
  | "SHA-512" => some .sha512
  | _ => none

/-- JS `signature.split("=")`: split a character list at every `=`. -/
def splitOnEq : List Char → List (List Char)
  | [] => [[]]
  | c :: rest =>
    match splitOnEq rest with
    | [] => [[]]
    | part :: parts =>
      if c = '=' then [] :: part :: parts else (c :: part) :: parts

/-- JS `String.prototype.replace` with a plain string pattern: replace the
first occurrence only. -/
def replaceFirst : List Char → List Char → List Char → List Char
  | [], _, _ => []
  | c :: rest, pat, rep =>
    if List.isPrefixOf pat (c :: rest) then rep ++ (c :: rest).drop pat.length
    else c :: replaceFirst rest pat rep

/-- One hex digit as produced by `Number.prototype.toString(16)`: lowercase. -/
def hexDigit (n : Nat) : Char :=
  if n < 10 then Char.ofNat ('0'.toNat + n) else Char.ofNat ('a'.toNat + (n - 10))

/-- `Array.from(new Uint8Array(buf)).map(b => b.toString(16).padStart(2,"0")).join("")`:
two lowercase hex digits per byte. -/
def hexEncode : List UInt8 → List Char
  | [] => []
  | b :: rest => hexDigit (b.toNat / 16) :: hexDigit (b.toNat % 16) :: hexEncode rest

/-- Errors with which the verification promise can reject. -/
inductive CryptoError where
  | notSupported (algorithmName : String)
  | typeError
deriving DecidableEq

/-- The parts of the `x-hub-signature` header after `signature.split("=")`. -/
def signatureParts (signature : String) : List (List Char) :=
  splitOnEq signature.toList

/-- The WebCrypto hash name built by lib.ts line 106:
`algo.toUpperCase().replace("SHA", "SHA-")`. -/
def hashNameOf (algo : List Char) : String :=
  String.mk (replaceFirst (algo.map Char.toUpper) "SHA".toList "SHA-".toList)

/-- `verifyNotificationSignature` from lib.ts 104-113.  The WebCrypto HMAC
primitive is the oracle argument `hmac`, returning the raw digest bytes for a
given hash algorithm, key and message.  An unsupported hash name makes
`importKey` reject (`.error`); a header without `=` leaves `matchingParts`
undefined so that `matchingParts.toLowerCase()` throws a TypeError; otherwise
the lowercase hex digest is compared to the lowercased header digest. -/
def verifyNotificationSignature (hmac : HashAlg → String → String → List UInt8)
    (secret signature xml : String) : Except CryptoError Bool :=
  match webCryptoHash (hashNameOf ((signatureParts signature).headD [])) with
  | none => .error (.notSupported (hashNameOf ((signatureParts signature).headD [])))
  | some alg =>
    match (signatureParts signature)[1]? with
    | none => .error .typeError
    | some matchingParts =>
      .ok (decide ((hexEncode (hmac alg secret xml)).map Char.toLower
            = matchingParts.map Char.toLower))

/-- The WebCrypto hash name built by utils.ts 82-85: both header parts are
lowercased first and the name is `algo.toUpperCase()` without inserting a
dash, so `sha256` becomes the unsupported name `SHA256`. -/
def utilsHashNameOf (algo : List Char) : String :=
  String.mk ((algo.map Char.toLower).map Char.toUpper)

/-- `verifyNotificationSignature` from utils.ts 81-93.  Here `matchingParts`
was already lowercased by the destructuring `split("=").map(toLowerCase)`. -/
def utilsVerifyNotificationSignature (hmac : HashAlg → String → String → List UInt8)
    (secret signature xml : String) : Except CryptoError Bool :=
  match webCryptoHash (utilsHashNameOf ((signatureParts signature).headD [])) with
  | none => .error (.notSupported (utilsHashNameOf ((signatureParts signature).headD [])))
  | some alg =>
    match ((signatureParts signature)[1]?).map (List.map Char.toLower) with
    | none => .error .typeError
    | some matchingParts =>
      .ok (decide ((hexEncode (hmac alg secret xml)).map Char.toLower
            = matchingParts))

/-! ## Feed classifier (lib.ts 122-162, `callbackSchema`) -/

/-- The validated entry object of the schema in lib.ts 127-139. -/
structure EntryData where
  videoId : String
  title : String
  channelId : String
  authorName : String
  authorUri : String
  published : Int
  updated : Int
deriving DecidableEq

structure VideoInfo where
  id : String
  title : String
  link : String
deriving DecidableEq

structure ChannelInfo where
  id : String
  name : String
  link : String
deriving DecidableEq

/-- The canonical notification record produced by the transform in
lib.ts 143-161 (equal to the VideoData type of utils.ts 103-116). -/
structure VideoData where
  video : VideoInfo
  channel : ChannelInfo
  published : Int
  updated : Int
deriving DecidableEq

/-- valibot validation of the entry object (lib.ts 128-138): an object whose
required fields must be present with the stated types; unknown fields, such as
any literal `link` node in whatever shape, are ignored. -/
def parseEntry (v : JSVal) : Option EntryData :=
  match v with
  | .obj fields => do
    let videoId ← (lookupField fields "yt:videoId").bind asString
    let title ← (lookupField fields "title").bind asString
    let channelId ← (lookupField fields "yt:channelId").bind asString
    let author ← lookupField fields "author"
    let authorFields ← match author with
      | .obj fs => some fs
      | _ => none
    let authorName ← (lookupField authorFields "name").bind asString
    let authorUri ← (lookupField authorFields "uri").bind asString
    let published ← (lookupField fields "published").bind asDate
    let updated ← (lookupField fields "updated").bind asDate
    some { videoId, title, channelId, authorName, authorUri, published, updated }
  | _ => none

/-- The transform of lib.ts 147-160: the video link is always synthesized from
the videoId, `published`/`updated` are the epoch milliseconds of the dates. -/
def videoDataOfEntry (e : EntryData) : VideoData :=
  { video := { id := e.videoId, title := e.title,
               link := "https://www.youtube.com/watch?v=" ++ e.videoId }
    channel := { id := e.channelId, name := e.authorName, link := e.authorUri }
    published := e.published
    updated := e.updated }

/-- `v.safeParse(callbackSchema, data)` followed by the transform
(lib.ts 122-162).  `none` is a failed safeParse; `some none` is a successful
parse whose transform returned null (a deleted entry, or a feed without an
entry); `some (some d)` is a video notification.  The union tries the
deleted-entry branch first: its only (required) key must be present, whatever
its value; the second branch has an optional entry, validated when present. -/
def callbackSchema (data : JSVal) : Option (Option VideoData) :=
  match data with
  | .obj fields =>
    match lookupField fields "feed" with
    | some (.obj feedFields) =>
      if (lookupField feedFields "at:deleted-entry").isSome then
        some none
      else
        match lookupField feedFields "entry" with
        | none => some none
        | some entryVal =>
          match parseEntry entryVal with
          | none => none
          | some e => some (some (videoDataOfEntry e))
    | _ => none
  | _ => none

/-! ## The notification pipelines -/

/-- An error thrown by `YoutubeNotifier.callback`. -/
inductive CallbackError where
  | invalidSignature
  | cryptoError (e : CryptoError)
deriving DecidableEq

/-- `YoutubeNotifier.callback` (lib.ts 63-73).  `parseXml` is the external
`fast-xml-parser` instance.  A missing header or a `false` verification throws
`new Error("Invalid signature")`; a rejection of the WebCrypto promise
propagates as is.  `.ok none` models the silent early returns (no event);
`.ok (some d)` models `sendDiscordNotification(..., d)` being reached. -/
def callback (hmac : HashAlg → String → String → List UInt8)
    (parseXml : String → JSVal) (secret xml : String)
    (signature : Option String) : Except CallbackError (Option VideoData) :=
  match signature with
  | none => .error .invalidSignature
  | some sig =>
    match verifyNotificationSignature hmac secret sig xml with
    | .error e => .error (.cryptoError e)
    | .ok false => .error .invalidSignature
    | .ok true =>
      match callbackSchema (parseXml xml) with
      | none => .ok none
      | some none => .ok none
      | some (some d) => .ok (some d)

/-- The raw fields read by the historical handler when it forwards a
notification (part_001 lines 48-61). -/
structure Part001Forwarded where
  videoId : JSVal
  title : JSVal
  link : JSVal
  channelId : JSVal
  authorName : JSVal
  authorUri : JSVal
  published : JSVal
  updated : JSVal

/-- Outcome of the historical POST /callback route. -/
inductive Part001Outcome where
  | invalidSignature
  | okIgnored
  | forwarded (data : Part001Forwarded)

/-- POST /callback of the historical entry file (part_001 lines 30-64).  The
guard on line 33 calls the async `verifyNotificationSignature` WITHOUT `await`;
the call therefore evaluates to a Promise object, which is truthy in
JavaScript, so `!verifyNotificationSignature(...)` is always false and the
guard only tests that the header is present.  After the guard the handler
reads the entry fields directly, in source evaluation order, with no schema
validation; `.error .typeError` is an exception reaching the error boundary. -/
def part001Callback (parseXml : String → JSVal) (xml : String)
    (signature : Option String) : Except JsError Part001Outcome :=
  match signature with
  | none => .ok .invalidSignature
  | some _ => do
    let data := parseXml xml
    let feed ← jsGet data "feed"
    let deleted ← jsGet feed "at:deleted-entry"
    if jsTruthy deleted then
      pure .okIgnored
    else do
      let video ← jsGet feed "entry"
      if jsTruthy video = false then
        pure .okIgnored
      else do
        let videoId ← jsGet video "yt:videoId"
        let published ← jsGet video "published"
        let updated ← jsGet video "updated"
        let title ← jsGet video "title"
        let link ← jsGet video "link"
        let href ← jsGet link "@_href"
        let channelId ← jsGet video "yt:channelId"
        let author ← jsGet video "author"
        let authorName ← jsGet author "name"
        let author2 ← jsGet video "author"
        let authorUri ← jsGet author2 "uri"
        pure (.forwarded { videoId, title, link := href, channelId,
                           authorName, authorUri, published, updated })

/-! ## Hub client (utils.ts 8-34, identical in lib.ts 76-102) -/

/-- The HTTP response as far as the code inspects it. -/
structure Response where
  ok : Bool
deriving DecidableEq

/-- Result of `await fetch(...)`: either a resolved response or a rejected
promise (network failure). -/
inductive FetchOutcome where
  | resp (r : Response)
  | networkError (msg : String)
deriving DecidableEq

/-- The form-encoded body POSTed to HUB_URL (utils.ts 20-26). -/
structure HubRequest where
  callback : String
  mode : String
  topic : String
  secret : String
  verify : String
deriving DecidableEq

/-- The argument record of `requestSubscription`. -/
structure SubscriptionArgs where
  mode : String
  channelId : String
  secret : String
  callbackUrl : String
deriving DecidableEq

def BASE_TOPIC_URL : String := "https://www.youtube.com/xml/feeds/videos.xml?channel_id="

/-- The request body built in utils.ts 19-26: topic is BASE_TOPIC_URL +
channelId and hub.verify is fixed to sync. -/
def hubRequestOf (args : SubscriptionArgs) : HubRequest :=
  { callback := args.callbackUrl
    mode := args.mode
    topic := BASE_TOPIC_URL ++ args.channelId
    secret := args.secret
    verify := "sync" }

/-- `requestSubscription` (utils.ts 8-34): a single POST, `true` exactly when
`response.ok`; a rejected fetch is NOT caught and propagates to the caller. -/
def requestSubscription (fetch : HubRequest → FetchOutcome)
    (args : SubscriptionArgs) : Except String Bool :=
  match fetch (hubRequestOf args) with
  | .networkError msg => .error msg
  | .resp r => if !r.ok then .ok false else .ok true

/-! ## Subscription registry (utils.ts 36-79, 130-146; lib.ts 15-61) -/

/-- A stored subscription (utils.ts 36-39). -/
structure Subscription where
  channelId : String
  lastSubscribedAt : Int
deriving DecidableEq

/-- A subscription of the lib.ts generation (lib.ts 7-10); `lastSubscribed`
is a `Date`, modelled by its epoch milliseconds. -/
structure LibSubscription where
  channelId : String
  lastSubscribed : Int
deriving DecidableEq

/-- JSON.stringify image of one subscription, as later seen by JSON.parse. -/
def subscriptionToJS (s : Subscription) : JSVal :=
  .obj [("channelId", .str s.channelId), ("lastSubscribedAt", .num s.lastSubscribedAt)]

/-- valibot `object({channelId: string(), lastSubscribedAt: number()})`
(utils.ts 36-39). -/
def parseSubscription (v : JSVal) : Option Subscription :=
  match v with
  | .obj fields => do
    let channelId ← (lookupField fields "channelId").bind asString
    let lastSubscribedAt ← (lookupField fields "lastSubscribedAt").bind asNum
    some { channelId, lastSubscribedAt }
  | _ => none

/-- Element-wise validation of the stored array. -/
def parseSubscriptionElems : List JSVal → Option (List Subscription)
  | [] => some []
  | v :: rest => do
    let s ← parseSubscription v
    let others ← parseSubscriptionElems rest
    some (s :: others)

/-- valibot `array(subscription)` (utils.ts 44): the value must be an array
and every element must validate. -/
def parseSubscriptionList (v : JSVal) : Option (List Subscription) :=
  match v with
  | .arr elems => parseSubscriptionElems elems
  | _ => none

/-- The KV namespace as the registry uses it: the single value stored under
SUBSCRIPTION_KV_KEY, already JSON-parsed (`none` when the key is absent). -/
structure KVState where
  blob : Option JSVal

/-- `getAllSubscriptions` (utils.ts 41-51): absent key gives the empty list;
a blob failing schema validation is deleted from KV and the empty list is
returned; a valid blob is returned as parsed.  The returned `KVState` is the
store after the call. -/
def getAllSubscriptions (kv : KVState) : List Subscription × KVState :=
  match kv.blob with
  | none => ([], kv)
  | some v =>
    match parseSubscriptionList v with
    | none => ([], ⟨none⟩)
    | some subs => (subs, kv)

/-- `YoutubeNotifier.getAllSubscriptions` (lib.ts 15-17):
`JSON.parse((await KV.get("subscriptions")) || "[]") as Subscription[]` casts
without any schema validation, returns the parsed blob unchanged and never
touches the store. -/
def libGetAllSubscriptions (kv : KVState) : JSVal × KVState :=
  (kv.blob.getD (.arr []), kv)

/-- The environment bindings the registry reads. -/
structure EnvCfg where
  apiSecret : String
  appDomain : String
deriving DecidableEq

/-- The subscribe arguments built identically by utils.ts addSubscription
(56-61), the cron worker (135-140) and lib.ts addSubscription/renewAll
(22-27, 51-56): callback is `https://` + APP_DOMAIN + `/callback`. -/
def subscribeArgs (env : EnvCfg) (channelId : String) : SubscriptionArgs :=
  { mode := "subscribe", channelId, secret := env.apiSecret
    callbackUrl := "https://" ++ env.appDomain ++ "/callback" }

/-- The unsubscribe arguments built by utils.ts removeSubscription (70-75):
the template literal `${env.APP_DOMAIN}/callback` omits the `https://` scheme
used everywhere else. -/
def removeUnsubscribeArgs (env : EnvCfg) (channelId : String) : SubscriptionArgs :=
  { mode := "unsubscribe", channelId, secret := env.apiSecret
    callbackUrl := env.appDomain ++ "/callback" }

/-- Callback URL built by lib.ts `addSubscription` (line 26). -/
def libAddCallbackUrl (appDomain : String) : String :=
  "https://" ++ appDomain ++ "/callback"

/-- Callback URL built by lib.ts `removeSubscription` (line 40). -/
def libRemoveCallbackUrl (appDomain : String) : String :=
  "https://" ++ appDomain ++ "/callback"

/-- An error thrown out of a registry operation. -/
inductive RegistryError where
  | thrown (message : String)
  | fetchRejected (message : String)
deriving DecidableEq

/-- `throw new Error("Failed to subscribe!")` (utils.ts 62). -/
def subscribeFailedError : RegistryError := .thrown "Failed to subscribe!"

/-- `throw new Error("Failed to unsubscribe!")` (utils.ts 76). -/
def unsubscribeFailedError : RegistryError := .thrown "Failed to unsubscribe!"

/-- `addSubscription` (utils.ts 53-65).  Returns the store after the call and
the outcome; `now` is `Date.now()` of the call.  Already present: silent
no-op.  Otherwise one hub call; a non-ok response throws before any write; on
success the appended list is stringified and put. -/
def addSubscription (fetch : HubRequest → FetchOutcome) (env : EnvCfg) (now : Int)
    (channelId : String) (kv : KVState) : KVState × Except RegistryError Unit :=
  let res := getAllSubscriptions kv
  let subs := res.1
  let kv1 := res.2
  if subs.any (fun s => s.channelId == channelId) then (kv1, .ok ())
  else
    match requestSubscription fetch (subscribeArgs env channelId) with
    | .error msg => (kv1, .error (.fetchRejected msg))
    | .ok false => (kv1, .error subscribeFailedError)
    | .ok true =>
      (⟨some (.arr ((subs ++ [(⟨channelId, now⟩ : Subscription)]).map subscriptionToJS))⟩,
       .ok ())

/-- `removeSubscription` (utils.ts 67-79). -/
def removeSubscription (fetch : HubRequest → FetchOutcome) (env : EnvCfg)
    (channelId : String) (kv : KVState) : KVState × Except RegistryError Unit :=
  let res := getAllSubscriptions kv
  let subs := res.1
  let kv1 := res.2
  if !subs.any (fun s => s.channelId == channelId) then (kv1, .ok ())
  else
    match requestSubscription fetch (removeUnsubscribeArgs env channelId) with
    | .error msg => (kv1, .error (.fetchRejected msg))
    | .ok false => (kv1, .error unsubscribeFailedError)
    | .ok true =>
      (⟨some (.arr ((subs.filter (fun s => s.channelId != channelId)).map subscriptionToJS))⟩,
       .ok ())

/-- `YoutubeNotifier.renewAll` (lib.ts 47-61): the loop body over the current
subscriptions.  Each iteration issues one subscribe call; a resolved non-ok
response fires one (fire-and-forget) Discord failure message and the pass
continues; a rejected fetch aborts the whole pass.  Every processed
subscription is pushed with `lastSubscribed = new Date()`; `now` models the
clock during the pass.  Returns the list that the single final `KV.put` would
persist, together with the failure messages in order. -/
def renewAll (fetch : HubRequest → FetchOutcome) (env : EnvCfg) (now : Int) :
    List LibSubscription → Except RegistryError (List LibSubscription × List String)
  | [] => .ok ([], [])
  | s :: rest =>
    match requestSubscription fetch (subscribeArgs env s.channelId) with
    | .error msg => .error (.fetchRejected msg)
    | .ok subscribed =>
      match renewAll fetch env now rest with
      | .error e => .error e
      | .ok tail =>
        if subscribed then
          .ok (⟨s.channelId, now⟩ :: tail.1, tail.2)
        else
          .ok (⟨s.channelId, now⟩ :: tail.1,
               ("Failed to renew subscription for " ++ s.channelId) :: tail.2)

/-- `renewSubscriptionCronWorker` (utils.ts 130-146): same loop, but each
subscription is pushed UNCHANGED into `renewedSubscriptions` — the stored
`lastSubscribedAt` is not refreshed. -/
def renewSubscriptionCronWorker (fetch : HubRequest → FetchOutcome) (env : EnvCfg) :
    List Subscription → Except RegistryError (List Subscription × List String)
  | [] => .ok ([], [])
  | s :: rest =>
    match requestSubscription fetch (subscribeArgs env s.channelId) with
    | .error msg => .error (.fetchRejected msg)
    | .ok subscribed =>
      match renewSubscriptionCronWorker fetch env rest with
      | .error e => .error e
      | .ok tail =>
        if subscribed then
          .ok (s :: tail.1, tail.2)
        else
          .ok (s :: tail.1, ("Failed to renew subscription for " ++ s.channelId) :: tail.2)

/-- The boolean outcome a resolving hub gives to the subscribe request for one
channel (the value of `subscribed` inside the renewal loops). -/
def renewAccepts (fetch : HubRequest → FetchOutcome) (env : EnvCfg)
    (channelId : String) : Bool :=
  match fetch (hubRequestOf (subscribeArgs env channelId)) with
  | .resp r => r.ok
  | .networkError _ => false

/-! ## Concrete fixtures used by witnesses and counterexamples -/

/-- A concrete HMAC oracle: digest bytes 0x12 0xab, hex string 12ab. -/
def hmacStub : HashAlg → String → String → List UInt8 := fun _ _ _ => [18, 171]

/-- The spec example entry (videoId v123, title T, channel c1, author A with
uri http://a, published 2024-01-01T00:00:00Z, updated 2024-01-02T00:00:00Z),
decorated with a literal link node carrying an @_href attribute. -/
def entryJS0 : JSVal :=
  .obj [("yt:videoId", .str "v123"), ("title", .str "T"),
        ("yt:channelId", .str "c1"),
        ("author", .obj [("name", .str "A"), ("uri", .str "http://a")]),
        ("published", .date 1704067200000), ("updated", .date 1704153600000),
        ("link", .obj [("@_href", .str "http://example.com/other")])]

def entryData0 : EntryData :=
  { videoId := "v123", title := "T", channelId := "c1", authorName := "A"
    authorUri := "http://a", published := 1704067200000, updated := 1704153600000 }

/-- A parsed feed document containing the example entry. -/
def feedJS0 : JSVal := .obj [("feed", .obj [("entry", entryJS0)])]

/-- A hub that accepts every request. -/
def hubAlwaysOk : HubRequest → FetchOutcome := fun _ => .resp ⟨true⟩

/-- A hub that answers every request with a non-success status. -/
def hubAlwaysFail : HubRequest → FetchOutcome := fun _ => .resp ⟨false⟩

def env0 : EnvCfg := { apiSecret := "s", appDomain := "example.com" }

/-- A stored blob that is valid JSON but fails the subscription schema. -/
def corruptBlob : JSVal := .arr [.obj [("foo", .num 1)]]

/-- A hub that rejects exactly the topic of channel c2. -/
def hubFailsC2 : HubRequest → FetchOutcome :=
  fun req => .resp ⟨req.topic != BASE_TOPIC_URL ++ "c2"⟩

/-- A complete entry except for the literal link node. -/
def entryMissingLinkJS : JSVal :=
  .obj [("yt:videoId", .str "v1"), ("title", .str "T"),
        ("yt:channelId", .str "c1"),
        ("author", .obj [("name", .str "A"), ("uri", .str "u")]),
        ("published", .str "2024-01-01"), ("updated", .str "2024-01-02")]

/-- Concrete arguments for the hub client. -/
def args0 : SubscriptionArgs :=
  { mode := "subscribe", channelId := "c1", secret := "s"
    callbackUrl := "https://example.com/callback" }

/-! ## Helper lemmas -/

lemma splitOnEq_ne_nil (l : List Char) : splitOnEq l ≠ [] := by
  cases l with
  | nil => simp [splitOnEq]
  | cons c rest =>
    unfold splitOnEq
    cases splitOnEq rest with
    | nil => simp
    | cons part parts =>
      by_cases hc : c = '=' <;> simp [hc]

lemma splitOnEq_no_sep (l : List Char) (h : '=' ∉ l) : splitOnEq l = [l] := by
  induction l with
  | nil => rfl
  | cons c rest ih =>
    have hc : ¬ c = '=' := fun hc => h (hc ▸ List.mem_cons_self c rest)
    have hrest := ih (fun hm => h (List.mem_cons_of_mem c hm))
    unfold splitOnEq
    rw [hrest]
    simp [hc]

lemma splitOnEq_cons (c : Char) (rest : List Char) :
    splitOnEq (c :: rest) =
      match splitOnEq rest with
      | [] => [[]]
      | part :: parts =>
        if c = '=' then [] :: part :: parts else (c :: part) :: parts := rfl

lemma splitOnEq_append (a b : List Char) (ha : '=' ∉ a) :
    splitOnEq (a ++ '=' :: b) = a :: splitOnEq b := by
  induction a with
  | nil =>
    rw [List.nil_append, splitOnEq_cons]
    cases hb : splitOnEq b with
    | nil => exact absurd hb (splitOnEq_ne_nil b)
    | cons part parts => simp
  | cons c rest ih =>
    have hc : ¬ c = '=' := fun hc => ha (hc ▸ List.mem_cons_self c rest)
    have hrest := ih (fun hm => ha (List.mem_cons_of_mem c hm))
    rw [List.cons_append, splitOnEq_cons, hrest]
    simp [hc]

lemma hexDigit_ne_sep {n : Nat} (h : n < 16) : hexDigit n ≠ '=' := by
  interval_cases n <;> decide

lemma hexDigit_lower {n : Nat} (h : n < 16) : Char.toLower (hexDigit n) = hexDigit n := by
  interval_cases n <;> decide

lemma uint8_div_lt (b : UInt8) : b.toNat / 16 < 16 :=
  Nat.div_lt_of_lt_mul (b.val.isLt)

lemma uint8_mod_lt (b : UInt8) : b.toNat % 16 < 16 :=
  Nat.mod_lt _ (by norm_num)

lemma hexEncode_no_sep (bytes : List UInt8) : '=' ∉ hexEncode bytes := by
  induction bytes with
  | nil => simp [hexEncode]
  | cons b rest ih =>
    unfold hexEncode
    intro hmem
    rw [List.mem_cons, List.mem_cons] at hmem
    rcases hmem with h | h | h
    · exact hexDigit_ne_sep (uint8_div_lt b) h.symm
    · exact hexDigit_ne_sep (uint8_mod_lt b) h.symm
    · exact ih h

lemma hexEncode_lower (bytes : List UInt8) :
    (hexEncode bytes).map Char.toLower = hexEncode bytes := by
  induction bytes with
  | nil => rfl
  | cons b rest ih =>
    unfold hexEncode
    rw [List.map_cons, List.map_cons, ih,
        hexDigit_lower (uint8_div_lt b), hexDigit_lower (uint8_mod_lt b)]

lemma append_mk_toList (s : String) (l : List Char) :
    (s ++ String.mk l).toList = s.toList ++ l := by
  cases s
  rfl

/-- The split of a well-formed sha256 header. -/
lemma signatureParts_sha256 (D : List Char) (hD : '=' ∉ D) :
    signatureParts ("sha256=" ++ String.mk D) = ["sha256".toList, D] := by
  unfold signatureParts
  rw [append_mk_toList]
  have h1 : "sha256=".toList ++ D = "sha256".toList ++ '=' :: D := rfl
  rw [h1, splitOnEq_append _ _ (by decide), splitOnEq_no_sep D hD]

lemma parseSubscription_roundtrip (s : Subscription) :
    parseSubscription (subscriptionToJS s) = some s := rfl

lemma parseSubscriptionElems_roundtrip (l : List Subscription) :
    parseSubscriptionElems (l.map subscriptionToJS) = some l := by
  induction l with
  | nil => rfl
  | cons s rest ih =>
    rw [List.map_cons]
    unfold parseSubscriptionElems
    rw [parseSubscription_roundtrip, ih]
    rfl

lemma parseSubscriptionList_roundtrip (l : List Subscription) :
    parseSubscriptionList (.arr (l.map subscriptionToJS)) = some l := by
  unfold parseSubscriptionList
  exact parseSubscriptionElems_roundtrip l

/-- Reading back a store that holds a stringified subscription list yields
that list and leaves the store untouched. -/
lemma getAllSubscriptions_store (l : List Subscription) :
    getAllSubscriptions ⟨some (.arr (l.map subscriptionToJS))⟩
      = (l, ⟨some (.arr (l.map subscriptionToJS))⟩) := by
  simp [getAllSubscriptions, parseSubscriptionList_roundtrip]

/-- Reading the registry is idempotent on the store: rereading the store left
behind by `getAllSubscriptions` yields the same list and the same store. -/
lemma getAllSubscriptions_idem (kv : KVState) :
    getAllSubscriptions (getAllSubscriptions kv).2 = getAllSubscriptions kv := by
  rcases kv with ⟨_ | v⟩
  · rfl
  · unfold getAllSubscriptions
    rcases hp : parseSubscriptionList v with _ | subs <;> simp [hp]

/-- When the read list is nonempty the read did not touch the store. -/
lemma getAllSubscriptions_snd_of_ne_nil (kv : KVState)
    (h : (getAllSubscriptions kv).1 ≠ []) : (getAllSubscriptions kv).2 = kv := by
  rcases kv with ⟨_ | v⟩
  · rfl
  · unfold getAllSubscriptions at *
    rcases hp : parseSubscriptionList v with _ | subs <;> simp [hp] at h ⊢

/-! ## Claim C1 -/

/-- C1: the claim says a push whose x-hub-signature is absent or does not
verify is rejected before any feed parsing and no event is forwarded.  The
lib.ts pipeline does so, but the historical part_001 route calls the async
verifier without await, so a present-but-invalid signature slips through:
with header sha256=00, which does NOT verify (first conjunct), the part_001
handler still parses the feed and forwards the notification (second
conjunct), while lib.ts rejects both this header and an absent one (last two
conjuncts). -/
theorem c1_invalid_signature_still_processed :
    verifyNotificationSignature hmacStub "secret" "sha256=00" "body" = .ok false
    ∧ part001Callback (fun _ => feedJS0) "body" (some "sha256=00")
        = .ok (.forwarded ⟨.str "v123", .str "T", .str "http://example.com/other",
            .str "c1", .str "A", .str "http://a",
            .date 1704067200000, .date 1704153600000⟩)
    ∧ callback hmacStub (fun _ => feedJS0) "secret" "body" (some "sha256=00")
        = .error .invalidSignature
    ∧ callback hmacStub (fun _ => feedJS0) "secret" "body" none
        = .error .invalidSignature :=
  ⟨rfl, rfl, rfl, rfl⟩

/-! ## Claim C3 -/

/-- C3 counterexample: the claim quantifies over the classifier of the
pipeline, but the historical part_001 route does not synthesize the watch URL:
it forwards the literal link @_href attribute of the entry, which here differs
from the canonical URL for videoId v123. -/
theorem c3_counterexample :
    part001Callback (fun _ => feedJS0) "body" (some "sha1=aa")
      = .ok (.forwarded ⟨.str "v123", .str "T", .str "http://example.com/other",
          .str "c1", .str "A", .str "http://a",
          .date 1704067200000, .date 1704153600000⟩)
    ∧ ("http://example.com/other" : String) ≠ "https://www.youtube.com/watch?v=" ++ "v123" :=
  ⟨rfl, by decide⟩

/-- C3 amended: the schema classifier of lib.ts (`callbackSchema`) always
synthesizes the video link from the videoId.  For every feed object without a
deletion marker whose entry validates — the entry value is arbitrary
otherwise, so any literal link field of any shape is ignored — the result is
the video notification whose link is the canonical watch URL. -/
theorem c3_link_synthesized (fields feedFields : List (String × JSVal))
    (entryVal : JSVal) (e : EntryData)
    (hfeed : lookupField fields "feed" = some (.obj feedFields))
    (hdel : lookupField feedFields "at:deleted-entry" = none)
    (hentry : lookupField feedFields "entry" = some entryVal)
    (he : parseEntry entryVal = some e) :
    callbackSchema (.obj fields) = some (some (videoDataOfEntry e))
    ∧ (videoDataOfEntry e).video.link = "https://www.youtube.com/watch?v=" ++ e.videoId := by
  constructor
  · simp [callbackSchema, hfeed, hdel, hentry, he]
  · rfl

/-- C3 witness: the spec example entry, which carries a literal link node with
an @_href attribute, classifies with the synthesized canonical link. -/
theorem c3_witness :
    callbackSchema feedJS0 = some (some (videoDataOfEntry entryData0))
    ∧ (videoDataOfEntry entryData0).video.link = "https://www.youtube.com/watch?v=" ++ "v123" :=
  c3_link_synthesized _ _ _ entryData0 rfl rfl rfl rfl

/-! ## Claim C4 -/

/-- C4 counterexample: the historical part_001 route performs no structural
validation; on an entry missing its link node the access
`video.link["@_href"]` throws a TypeError that escapes to the error boundary,
so the pipeline does raise an error on a structurally invalid entry. -/
theorem c4_counterexample :
    part001Callback (fun _ => .obj [("feed", .obj [("entry", entryMissingLinkJS)])])
        "b" (some "sha1=aa")
      = .error .typeError := rfl

/-- C4 amended: the schema-validating pipeline (`YoutubeNotifier.callback` of
lib.ts) degrades to ignore: whenever the signature verifies and the document
fails schema validation, the callback returns normally and forwards
nothing. -/
theorem c4_degrades_to_ignore (hmac : HashAlg → String → String → List UInt8)
    (parseXml : String → JSVal) (secret xml sig : String)
    (hsig : verifyNotificationSignature hmac secret sig xml = .ok true)
    (hfail : callbackSchema (parseXml xml) = none) :
    callback hmac parseXml secret xml (some sig) = .ok none := by
  simp [callback, hsig, hfail]

/-- C4 witness: a feed whose entry is a bare string fails validation and the
lib.ts callback ignores it without error. -/
theorem c4_witness :
    callback hmacStub (fun _ => .obj [("feed", .obj [("entry", .str "bad")])])
        "k" "m" (some "sha256=12ab") = .ok none :=
  c4_degrades_to_ignore hmacStub _ "k" "m" "sha256=12ab" rfl rfl

/-! ## Claim C5 -/

/-- C5 counterexample: the claim also cites the lib.ts listAll
(`YoutubeNotifier.getAllSubscriptions`), which performs no schema validation:
given a stored blob failing the subscription schema (first conjunct) it
returns the blob verbatim and leaves the store untouched (second conjunct),
instead of deleting it and returning the empty sequence (third conjunct: the
returned value is not the empty array). -/
theorem c5_counterexample :
    parseSubscriptionList corruptBlob = none
    ∧ libGetAllSubscriptions ⟨some corruptBlob⟩ = (corruptBlob, ⟨some corruptBlob⟩)
    ∧ corruptBlob ≠ .arr [] :=
  ⟨rfl, rfl, by intro h; injection h with h; exact absurd h (by simp)⟩

/-- C5 amended: the utils.ts listAll (`getAllSubscriptions`) self-heals as
claimed: a present blob failing schema validation is deleted from the store
and the empty sequence is returned, with no error channel in the result. -/
theorem c5_self_healing (blob : JSVal)
    (h : parseSubscriptionList blob = none) :
    getAllSubscriptions ⟨some blob⟩ = ([], ⟨none⟩) := by
  simp [getAllSubscriptions, h]

/-- C5 witness: the corrupt fixture blob is deleted and the list is empty. -/
theorem c5_witness : getAllSubscriptions ⟨some corruptBlob⟩ = ([], ⟨none⟩) :=
  c5_self_healing corruptBlob rfl

/-! ## Claim C6 -/

/-- C6 counterexample: the claim also cites the utils.ts renewal pass
(`renewSubscriptionCronWorker`), which persists each subscription UNCHANGED:
for a pass at time 7 over a subscription last subscribed at 5, the persisted
timestamp is still 5, while the lib.ts `renewAll` refreshes it to 7. -/
theorem c6_counterexample :
    renewSubscriptionCronWorker hubAlwaysOk env0 [⟨"c1", 5⟩] = .ok ([⟨"c1", 5⟩], [])
    ∧ renewAll hubAlwaysOk env0 7 [⟨"c1", 5⟩] = .ok ([⟨"c1", 7⟩], [])
    ∧ ((5 : Int) ≠ 7) :=
  ⟨rfl, rfl, by decide⟩

/-- C6 amended: when every hub call resolves, neither renewal pass aborts on a
non-ok response: `renewAll` persists every subscription with `lastSubscribed`
refreshed to the pass time and emits exactly one failure report per rejected
channel, in order; `renewSubscriptionCronWorker` also keeps every subscription
and reports each failure once, but persists each subscription with its stored
`lastSubscribedAt` unchanged. -/
theorem c6_renewal_keeps_all (fetch : HubRequest → FetchOutcome) (env : EnvCfg)
    (now : Int) (subs : List LibSubscription) (usubs : List Subscription)
    (hfetch : ∀ req, ∃ r, fetch req = .resp r) :
    renewAll fetch env now subs
      = .ok (subs.map fun s => (⟨s.channelId, now⟩ : LibSubscription),
             (subs.filter fun s => !(renewAccepts fetch env s.channelId)).map
               fun s => "Failed to renew subscription for " ++ s.channelId)
    ∧ renewSubscriptionCronWorker fetch env usubs
      = .ok (usubs,
             (usubs.filter fun s => !(renewAccepts fetch env s.channelId)).map
               fun s => "Failed to renew subscription for " ++ s.channelId) := by
  have hreq : ∀ channelId, requestSubscription fetch (subscribeArgs env channelId)
      = .ok (renewAccepts fetch env channelId) := by
    intro channelId
    obtain ⟨r, hr⟩ := hfetch (hubRequestOf (subscribeArgs env channelId))
    unfold requestSubscription renewAccepts
    rw [hr]
    rcases r with ⟨b⟩
    cases b <;> rfl
  constructor
  · induction subs with
    | nil => rfl
    | cons s rest ih =>
      unfold renewAll
      rw [hreq s.channelId, ih]
      cases hacc : renewAccepts fetch env s.channelId <;>
        simp [List.filter_cons, hacc]
  · induction usubs with
    | nil => rfl
    | cons s rest ih =>
      unfold renewSubscriptionCronWorker
      rw [hreq s.channelId, ih]
      cases hacc : renewAccepts fetch env s.channelId <;>
        simp [List.filter_cons, hacc]

/-- C6 witness: a pass at time 9 over three subscriptions where the hub
rejects the second: all three are persisted and exactly one report is
emitted by either loop; `renewAll` refreshes every timestamp to 9. -/
theorem c6_witness :
    renewAll hubFailsC2 env0 9 [⟨"c1", 1⟩, ⟨"c2", 2⟩, ⟨"c3", 3⟩]
      = .ok ([⟨"c1", 9⟩, ⟨"c2", 9⟩, ⟨"c3", 9⟩], ["Failed to renew subscription for c2"])
    ∧ renewSubscriptionCronWorker hubFailsC2 env0 [⟨"c1", 1⟩, ⟨"c2", 2⟩, ⟨"c3", 3⟩]
      = .ok ([⟨"c1", 1⟩, ⟨"c2", 2⟩, ⟨"c3", 3⟩], ["Failed to renew subscription for c2"]) :=
  ⟨(c6_renewal_keeps_all hubFailsC2 env0 9 [⟨"c1", 1⟩, ⟨"c2", 2⟩, ⟨"c3", 3⟩] []
      (fun req => ⟨⟨req.topic != BASE_TOPIC_URL ++ "c2"⟩, rfl⟩)).1,
   (c6_renewal_keeps_all hubFailsC2 env0 9 [] [⟨"c1", 1⟩, ⟨"c2", 2⟩, ⟨"c3", 3⟩]
      (fun req => ⟨⟨req.topic != BASE_TOPIC_URL ++ "c2"⟩, rfl⟩)).2⟩

/-! ## Claim C7 -/

/-- C7 counterexample: a network failure of the fetch call is not caught:
`requestSubscription` propagates the rejection instead of returning false. -/
theorem c7_counterexample :
    requestSubscription (fun _ => .networkError "connection reset") args0
      = .error "connection reset"
    ∧ requestSubscription (fun _ => .networkError "connection reset") args0
      ≠ .ok false :=
  ⟨rfl, by intro h; exact Except.noConfusion h⟩

/-- C7 amended: `requestSubscription` returns true exactly when the single
POST resolves with a success status and false when it resolves with a non-ok
status; a network failure of the call itself propagates as an error to the
caller rather than yielding false. -/
theorem c7_result_mirrors_response (fetch : HubRequest → FetchOutcome)
    (args : SubscriptionArgs) :
    (∀ r : Response, fetch (hubRequestOf args) = .resp r →
      requestSubscription fetch args = .ok r.ok)
    ∧ (∀ msg : String, fetch (hubRequestOf args) = .networkError msg →
      requestSubscription fetch args = .error msg) := by
  constructor
  · intro r h
    unfold requestSubscription
    rw [h]
    rcases r with ⟨b⟩
    cases b <;> rfl
  · intro msg h
    unfold requestSubscription
    rw [h]

/-- C7 witness: a non-ok response yields false, a rejected fetch yields the
propagated error. -/
theorem c7_witness :
    requestSubscription hubAlwaysFail args0 = .ok false
    ∧ requestSubscription (fun _ => .networkError "down") args0 = .error "down" :=
  ⟨(c7_result_mirrors_response hubAlwaysFail args0).1 ⟨false⟩ rfl,
   (c7_result_mirrors_response (fun _ => .networkError "down") args0).2 "down" rfl⟩

/-! ## Claim C10 -/

/-- C10: in utils.ts the callback URL passed to the hub by removeSubscription
is NOT the one passed by addSubscription: with APP_DOMAIN example.com, add
passes https://example.com/callback while remove passes example.com/callback
(the template literal omits the scheme); the lib.ts generation builds the same
URL in both operations, showing the intended invariant. -/
theorem c10_callback_url_mismatch :
    (hubRequestOf (subscribeArgs env0 "c1")).callback = "https://example.com/callback"
    ∧ (hubRequestOf (removeUnsubscribeArgs env0 "c1")).callback = "example.com/callback"
    ∧ (hubRequestOf (removeUnsubscribeArgs env0 "c1")).callback
        ≠ (hubRequestOf (subscribeArgs env0 "c1")).callback
    ∧ libAddCallbackUrl "example.com" = libRemoveCallbackUrl "example.com" :=
  ⟨rfl, rfl, by decide, rfl⟩

/-! ## Claim C8 -/

/-- C8: for a channelId not yet present (count 0 in the stored list), a
successful `addSubscription` leaves exactly one entry with that channelId in
the following `listAll`; for a channelId already present, `addSubscription`
returns successfully and the store is exactly what it was. -/
theorem c8_add_idempotent (fetch : HubRequest → FetchOutcome) (env : EnvCfg)
    (now : Int) (channelId : String) (kv : KVState) :
    ((getAllSubscriptions kv).1.countP (fun s => s.channelId == channelId) = 0 →
      ∀ kv', addSubscription fetch env now channelId kv = (kv', .ok ()) →
        (getAllSubscriptions kv').1.countP (fun s => s.channelId == channelId) = 1)
    ∧ ((getAllSubscriptions kv).1.any (fun s => s.channelId == channelId) = true →
      addSubscription fetch env now channelId kv = (kv, .ok ())) := by
  constructor
  · intro h0 kv' hadd
    have hany : (getAllSubscriptions kv).1.any (fun s => s.channelId == channelId)
        = false := by
      rw [Bool.eq_false_iff]
      intro htrue
      obtain ⟨x, hx, hpx⟩ := List.any_eq_true.mp htrue
      exact List.countP_eq_zero.mp h0 x hx hpx
    simp only [addSubscription, hany] at hadd
    cases hreq : requestSubscription fetch (subscribeArgs env channelId) with
    | error msg => simp [hreq] at hadd
    | ok b =>
      cases b with
      | false => simp [hreq] at hadd
      | true =>
        rw [hreq] at hadd
        simp only [Bool.false_eq_true, if_false, Prod.mk.injEq, and_true] at hadd
        subst hadd
        rw [getAllSubscriptions_store]
        simp [List.countP_append, List.countP_cons, h0]
  · intro hany
    have hne : (getAllSubscriptions kv).1 ≠ [] := by
      obtain ⟨x, hx, _⟩ := List.any_eq_true.mp hany
      exact List.ne_nil_of_mem hx
    simp [addSubscription, hany, getAllSubscriptions_snd_of_ne_nil kv hne]

/-- C8 witness: adding c1 to an empty store yields exactly one c1 entry;
adding c2 to a store already holding c2 returns success and changes
nothing. -/
theorem c8_witness :
    (getAllSubscriptions ⟨some (.arr [subscriptionToJS ⟨"c1", 5⟩])⟩).1.countP
        (fun s => s.channelId == "c1") = 1
    ∧ addSubscription hubAlwaysOk env0 9 "c2" ⟨some (.arr [subscriptionToJS ⟨"c2", 3⟩])⟩
        = (⟨some (.arr [subscriptionToJS ⟨"c2", 3⟩])⟩, .ok ()) :=
  ⟨(c8_add_idempotent hubAlwaysOk env0 5 "c1" ⟨none⟩).1 rfl
      ⟨some (.arr [subscriptionToJS ⟨"c1", 5⟩])⟩ rfl,
   (c8_add_idempotent hubAlwaysOk env0 9 "c2"
      ⟨some (.arr [subscriptionToJS ⟨"c2", 3⟩])⟩).2 rfl⟩

/-! ## Claim C9 -/

/-- C9 counterexample: with a corrupt stored blob, the hub-failure path of
addSubscription still mutates storage — the corrupt blob was deleted by the
registry read inside the call — so the persisted registry is NOT identical
before and after the failing call, contrary to the claim that no storage
write occurs. -/
theorem c9_counterexample :
    addSubscription hubAlwaysFail env0 5 "c1" ⟨some corruptBlob⟩
      = (⟨none⟩, .error subscribeFailedError)
    ∧ (⟨none⟩ : KVState) ≠ ⟨some corruptBlob⟩ :=
  ⟨rfl, by intro h; injection h with h; exact Option.noConfusion h⟩

/-- C9 amended: when the hub reports failure, addSubscription throws
"Failed to subscribe!" and removeSubscription throws
"Failed to unsubscribe!"; neither performs a write of its own — the resulting
store is exactly the store left by the initial registry read (for remove the
channel is present, so that read left the store untouched), and the listAll
view is unchanged in every case. -/
theorem c9_hub_failure_raises_without_write (fetch : HubRequest → FetchOutcome)
    (env : EnvCfg) (now : Int) (channelId : String) (kv : KVState)
    (hsub : fetch (hubRequestOf (subscribeArgs env channelId)) = .resp ⟨false⟩)
    (hunsub : fetch (hubRequestOf (removeUnsubscribeArgs env channelId)) = .resp ⟨false⟩) :
    ((getAllSubscriptions kv).1.any (fun s => s.channelId == channelId) = false →
      addSubscription fetch env now channelId kv
        = ((getAllSubscriptions kv).2, .error subscribeFailedError))
    ∧ ((getAllSubscriptions kv).1.any (fun s => s.channelId == channelId) = true →
      removeSubscription fetch env channelId kv = (kv, .error unsubscribeFailedError))
    ∧ (getAllSubscriptions (getAllSubscriptions kv).2).1 = (getAllSubscriptions kv).1 := by
  have hreqsub : requestSubscription fetch (subscribeArgs env channelId) = .ok false := by
    unfold requestSubscription
    rw [hsub]
    rfl
  have hrequnsub : requestSubscription fetch (removeUnsubscribeArgs env channelId)
      = .ok false := by
    unfold requestSubscription
    rw [hunsub]
    rfl
  refine ⟨?_, ?_, ?_⟩
  · intro hany
    simp [addSubscription, hany, hreqsub]
  · intro hany
    have hne : (getAllSubscriptions kv).1 ≠ [] := by
      obtain ⟨x, hx, _⟩ := List.any_eq_true.mp hany
      exact List.ne_nil_of_mem hx
    simp [removeSubscription, hany, hrequnsub, getAllSubscriptions_snd_of_ne_nil kv hne]
  · rw [getAllSubscriptions_idem]

/-- C9 witness: on a well-formed store holding c2, a failing subscribe for c1
and a failing unsubscribe for c2 both raise and leave the store as it was. -/
theorem c9_witness :
    addSubscription hubAlwaysFail env0 5 "c1" ⟨some (.arr [subscriptionToJS ⟨"c2", 3⟩])⟩
      = (⟨some (.arr [subscriptionToJS ⟨"c2", 3⟩])⟩, .error subscribeFailedError)
    ∧ removeSubscription hubAlwaysFail env0 "c2" ⟨some (.arr [subscriptionToJS ⟨"c2", 3⟩])⟩
      = (⟨some (.arr [subscriptionToJS ⟨"c2", 3⟩])⟩, .error unsubscribeFailedError) :=
  ⟨(c9_hub_failure_raises_without_write hubAlwaysFail env0 5 "c1"
      ⟨some (.arr [subscriptionToJS ⟨"c2", 3⟩])⟩ rfl rfl).1 rfl,
   (c9_hub_failure_raises_without_write hubAlwaysFail env0 0 "c2"
      ⟨some (.arr [subscriptionToJS ⟨"c2", 3⟩])⟩ rfl rfl).2.1 rfl⟩

/-! ## Claim C2 -/

/-- C2 counterexample: an unsupported algorithm name does not make
verification return false — the WebCrypto key import rejects, lib.ts maps
md5 to the unrecognised hash name MD5 and the returned promise is an error
(first conjunct).  The utils.ts variant rejects even a correct sha256 header,
since it builds the hash name without a dash: 12ab is exactly the digest of
the oracle (third conjunct), yet verification errors (second conjunct). -/
theorem c2_counterexample :
    verifyNotificationSignature hmacStub "s" "md5=00" "b" = .error (.notSupported "MD5")
    ∧ utilsVerifyNotificationSignature hmacStub "s" "sha256=12ab" "b"
        = .error (.notSupported "SHA256")
    ∧ hexEncode (hmacStub .sha256 "s" "b") = "12ab".toList :=
  ⟨rfl, rfl, rfl⟩

/-- C2 amended: for the lib.ts verifier, a sha256 header carrying the
correctly computed digest verifies true; a header carrying any hex-free-form
digest that differs case-insensitively from the correct one yields false; and
a header whose algorithm name resolves to an unsupported WebCrypto hash makes
verification fail with a NotSupported error rather than return false. -/
theorem c2_verify_correctness (hmac : HashAlg → String → String → List UInt8)
    (S B : String) :
    verifyNotificationSignature hmac S
        ("sha256=" ++ String.mk (hexEncode (hmac .sha256 S B))) B = .ok true
    ∧ (∀ D : List Char, '=' ∉ D →
        D.map Char.toLower ≠ (hexEncode (hmac .sha256 S B)).map Char.toLower →
        verifyNotificationSignature hmac S ("sha256=" ++ String.mk D) B = .ok false)
    ∧ (∀ algo rest : List Char, '=' ∉ algo →
        webCryptoHash (hashNameOf algo) = none →
        verifyNotificationSignature hmac S (String.mk (algo ++ '=' :: rest)) B
          = .error (.notSupported (hashNameOf algo))) := by
  refine ⟨?_, ?_, ?_⟩
  · have h1 : verifyNotificationSignature hmac S
        ("sha256=" ++ String.mk (hexEncode (hmac .sha256 S B))) B
        = .ok (decide ((hexEncode (hmac .sha256 S B)).map Char.toLower
            = (hexEncode (hmac .sha256 S B)).map Char.toLower)) := by
      unfold verifyNotificationSignature
      rw [signatureParts_sha256 _ (hexEncode_no_sep _)]
      rfl
    rw [h1]
    exact congrArg Except.ok (decide_eq_true rfl)
  · intro D hDne hne
    have h1 : verifyNotificationSignature hmac S ("sha256=" ++ String.mk D) B
        = .ok (decide ((hexEncode (hmac .sha256 S B)).map Char.toLower
            = D.map Char.toLower)) := by
      unfold verifyNotificationSignature
      rw [signatureParts_sha256 D hDne]
      rfl
    rw [h1]
    exact congrArg Except.ok (decide_eq_false fun h => hne h.symm)
  · intro algo rest halgo hunsup
    have hsplit : signatureParts (String.mk (algo ++ '=' :: rest))
        = algo :: splitOnEq rest := splitOnEq_append algo rest halgo
    unfold verifyNotificationSignature
    rw [hsplit]
    simp only [List.headD_cons]
    rw [hunsup]

/-- C2 witness: with the concrete oracle, the correct digest verifies, a
tampered digest ffff fails false, and an md5 header errors. -/
theorem c2_witness :
    verifyNotificationSignature hmacStub "k"
        ("sha256=" ++ String.mk (hexEncode (hmacStub .sha256 "k" "m"))) "m" = .ok true
    ∧ verifyNotificationSignature hmacStub "k"
        ("sha256=" ++ String.mk ['f', 'f', 'f', 'f']) "m" = .ok false
    ∧ verifyNotificationSignature hmacStub "k"
        (String.mk ("md5".toList ++ '=' :: "00".toList)) "m"
        = .error (.notSupported (hashNameOf "md5".toList)) :=
  ⟨(c2_verify_correctness hmacStub "k" "m").1,
   (c2_verify_correctness hmacStub "k" "m").2.1 ['f', 'f', 'f', 'f']
     (by decide) (by decide),
   (c2_verify_correctness hmacStub "k" "m").2.2 "md5".toList "00".toList
     (by decide) (by decide)⟩

end YtNotify
